import Mathlib

/-!
Verification of the `bundlecat` command-line client (`src/main.rs`).

Strings are modelled as `List Char` (Rust `&str`/`String`), byte buffers as
`List Nat`.  The pure address logic (`PartialEndpointId::split_node_agent`,
`node_id`, `agent_id`, `is_singleton_node`) is embedded directly; the
effectful `main`, `send` and `receive` functions are embedded as pure
functions over explicit parameters standing for the transport and stream
outcomes (connection result, handshake result, stdin read events, transport
send/receive results, stdout write result), returning an explicit outcome
value that records which error path (exit code) was taken, which transport
calls were issued, and which log lines were produced.
-/

namespace Bundlecat

/-- The DTN URI scheme text `dtn://` (6 characters). -/
def dtnScheme : List Char := ['d', 't', 'n', ':', '/', '/']

/-- Rust `str::split_once("/")`: the text before the first `/` and the text
after it, or `none` when no `/` occurs. -/
def splitOnce : List Char → Option (List Char × List Char)
  | [] => none
  | c :: cs =>
    if c = '/' then some ([], cs)
    else
      match splitOnce cs with
      | none => none
      | some (a, b) => some (c :: a, b)

/-- `PartialEndpointId::split_node_agent` (src/main.rs lines 42-59):
`self.0.starts_with("dtn://")` is `raw.take 6 = dtnScheme`; `self.0[6..]` is
`raw.drop 6`; `self.0[0..(6+node_id.len()+1)]` is `raw.take (6 + n + 1)`. -/
def splitNodeAgent (raw : List Char) : Option (List Char) × Option (List Char) :=
  if raw.take 6 = dtnScheme then
    match splitOnce (raw.drop 6) with
    | none => (some raw, none)
    | some (node_id, agent_id) =>
      if agent_id = [] then (some raw, none)
      else (some (raw.take (6 + node_id.length + 1)), some agent_id)
  else if raw ≠ [] then (none, some raw)
  else (none, none)

/-- `PartialEndpointId::node_id`. -/
def nodeId (raw : List Char) : Option (List Char) :=
  (splitNodeAgent raw).1

/-- `PartialEndpointId::agent_id`. -/
def agentId (raw : List Char) : Option (List Char) :=
  (splitNodeAgent raw).2

/-- `PartialEndpointId::is_singleton_node` (src/main.rs lines 69-74):
`self.node_id().and_then(|it| it.chars().skip(6).next())`, then
`Some('~') => false`, anything else `true`. -/
def isSingletonNode (raw : List Char) : Bool :=
  match (nodeId raw).bind (fun it => (it.drop 6).head?) with
  | some c => if c = '~' then false else true
  | none => true

/-- Rust `Option::is_none_or`. -/
def isNoneOr (o : Option α) (p : α → Bool) : Bool :=
  match o with
  | none => true
  | some a => p a

/-- Rust `Option::is_some_and`. -/
def isSomeAnd (o : Option α) (p : α → Bool) : Bool :=
  match o with
  | none => false
  | some a => p a

/-- The parsed command line (struct `Cli`): `verbose`, `listen`,
`source_endpoint_id` (`-S`), and the positional `endpoint_id`. -/
structure Config where
  verbose : Bool
  listen : Bool
  sourceEndpointId : Option (List Char)
  endpointId : Option (List Char)
deriving DecidableEq, Repr

/-- How far `main` gets before the single bundle exchange: which fatal path
fires, or the agent id that `agent.register` is called with. -/
inductive Outcome where
  /-- clap usage error: destination has no node part (send mode). -/
  | usageMissingNode
  /-- clap usage error: destination has no agent part (send mode). -/
  | usageMissingAgent
  /-- `exit(1)`: non-singleton source endpoint in send mode. -/
  | exitNonSingletonSource
  /-- `exit(1)`: non-singleton listen endpoint in listen mode. -/
  | exitNonSingletonListen
  /-- `exit(10)`: `UnixStream::connect` failed. -/
  | connectFailed
  /-- `exit(11)`: `Agent::new` handshake failed. -/
  | handshakeFailed
  /-- `exit(2)`: an explicit node id differs from the server's node id. -/
  | nodeMismatch (serverNode : List Char)
  /-- validation, connection, handshake and cross-check all passed;
  `agent.register` is called with this agent id. -/
  | registerCalled (agent_id : List Char)
deriving DecidableEq, Repr

/-- The process exit code an `Outcome` maps to: `none` for the clap usage
path (the framework picks the code) and for a run that proceeds. -/
def exitCodeOf : Outcome → Option Nat
  | .usageMissingNode => none
  | .usageMissingAgent => none
  | .exitNonSingletonSource => some 1
  | .exitNonSingletonListen => some 1
  | .connectFailed => some 10
  | .handshakeFailed => some 11
  | .nodeMismatch _ => some 2
  | .registerCalled _ => none

/-- The zero-I/O validation chain at the top of `main` (src/main.rs lines
93-112), in source order: send mode checks destination node part, then
destination agent part, then the singleton constraint on the source; listen
mode checks the singleton constraint on the listen endpoint. -/
def validationError (c : Config) : Option Outcome :=
  if !c.listen then
    if isNoneOr c.endpointId (fun it => (nodeId it).isNone) then
      some .usageMissingNode
    else if isNoneOr c.endpointId (fun it => (agentId it).isNone) then
      some .usageMissingAgent
    else if isSomeAnd c.sourceEndpointId (fun it => !isSingletonNode it) then
      some .exitNonSingletonSource
    else none
  else if isSomeAnd c.endpointId (fun it => !isSingletonNode it) then
    some .exitNonSingletonListen
  else none

/-- `some` endpoint whose node part is present and textually differs from
`serverNode`: the shape of both arms of the exit-2 condition in `main`. -/
def optNodeMismatch (addr : Option (List Char)) (serverNode : List Char) : Bool :=
  isSomeAnd addr (fun it => isSomeAnd (nodeId it) (fun n => n ≠ serverNode))

/-- The exit-2 condition in `main` (src/main.rs lines 135-143):
`(cli.listen && endpoint_id node differs) || (source_endpoint_id node
differs)`.  The send-mode destination is not part of this test. -/
def crossCheckFails (c : Config) (serverNode : List Char) : Bool :=
  (c.listen && optNodeMismatch c.endpointId serverNode)
    || optNodeMismatch c.sourceEndpointId serverNode

/-- The exit-2 error line: `Provided node id is different from node id
configured on server ({})` with the server's node id interpolated. -/
def mismatchMessage (serverNode : List Char) : List Char :=
  "Provided node id is different from node id configured on server (".toList
    ++ serverNode ++ ")".toList

/-- Agent-id derivation in `main` (src/main.rs lines 145-151): take the
listen endpoint (listen mode) or the source endpoint (send mode), default it
to the empty string, use its agent part if any, else the fresh uuid. -/
def deriveAgentId (c : Config) (uuid : List Char) : List Char :=
  let addr := (if c.listen then c.endpointId else c.sourceEndpointId).getD []
  match agentId addr with
  | some a => a
  | none => uuid

/-- `main` up to (and including) the call to `agent.register`, as a pure
function of the connection result, the handshake result (the server's node
id on success) and the fresh uuid. -/
def mainPre (c : Config) (connectR : Except Unit Unit)
    (handshakeR : Except Unit (List Char)) (uuid : List Char) : Outcome :=
  match validationError c with
  | some e => e
  | none =>
    match connectR with
    | .error _ => .connectFailed
    | .ok _ =>
      match handshakeR with
      | .error _ => .handshakeFailed
      | .ok serverNode =>
        if crossCheckFails c serverNode then .nodeMismatch serverNode
        else .registerCalled (deriveAgentId c uuid)

/-- One `stdin().read(&mut buffer)` outcome in `send`: `ok bytes` is
`Ok(byte_red)` delivering `bytes` (`byte_red = bytes.length`, at most 1024),
`fail` is `Err(_)`. -/
inductive ReadEvent where
  | ok (bytes : List Nat)
  | fail
deriving DecidableEq, Repr

/-- The accumulation loop of `send` (src/main.rs lines 177-193): each read
either fails (exit 13), delivers 0 bytes (break with the accumulated
buffer), or extends the buffer and continues.  `none` models a stream whose
given event trace never terminates the loop. -/
def readLoop : List ReadEvent → List Nat → Option (Except Unit (List Nat))
  | [], _ => none
  | ReadEvent.fail :: _, _ => some (Except.error ())
  | ReadEvent.ok bs :: rest, acc =>
    if bs = [] then some (Except.ok acc)
    else readLoop rest (acc ++ bs)

/-- The verbose summary line of `send`:
`Sent {bundle_size} byte bundle to {destination_eid}`. -/
def sentLog (n : Nat) (dest : List Char) : List Char :=
  "Sent ".toList ++ (Nat.repr n).toList ++ " byte bundle to ".toList ++ dest

/-- What a run of `send` did: the `send_bundle` calls it issued (destination
and payload of each), the exit code (`none` = success), and the verbose log
lines. -/
structure SendRun where
  sendCalls : List (List Char × List Nat)
  exitCode : Option Nat
  logs : List (List Char)
deriving DecidableEq, Repr

/-- `send` (src/main.rs lines 173-204) as a pure function of the stdin event
trace and the transport's `send_bundle` result.  `none` when the event trace
never terminates the read loop (the real program would still be blocked). -/
def sendRun (stdinEvents : List ReadEvent) (sendOk : Bool) (verbose : Bool)
    (destination : List Char) : Option SendRun :=
  match readLoop stdinEvents [] with
  | none => none
  | some (Except.error _) => some ⟨[], some 13, []⟩
  | some (Except.ok content) =>
    if sendOk then
      some ⟨[(destination, content)], none,
        if verbose then [sentLog content.length destination] else []⟩
    else
      some ⟨[(destination, content)], some 14, []⟩

/-- A received bundle: optional source endpoint string and payload bytes. -/
structure Bundle where
  source : Option (List Char)
  payload : List Nat
deriving DecidableEq, Repr

/-- The verbose line of `receive`: `Received bundle from {source}` when the
bundle carries a source, else `Received bundle from unknown source`. -/
def receivedLog : Option (List Char) → List Char
  | some s => "Received bundle from ".toList ++ s
  | none => "Received bundle from unknown source".toList

/-- What a run of `receive` did: the bytes written to stdout (`none` when
nothing was successfully written), the exit code, the verbose log lines. -/
structure ReceiveRun where
  output : Option (List Nat)
  exitCode : Option Nat
  logs : List (List Char)
deriving DecidableEq, Repr

/-- `receive` (src/main.rs lines 206-225) as a pure function of the
transport's `recv_bundle` result and the stdout `write_all` result: a failed
receive exits 15 before logging; a delivered bundle is logged (verbose),
then written verbatim, a failed write exiting 16. -/
def receiveRun (recvResult : Except Unit Bundle) (writeOk : Bool)
    (verbose : Bool) : ReceiveRun :=
  match recvResult with
  | Except.error _ => ⟨none, some 15, []⟩
  | Except.ok b =>
    let logs := if verbose then [receivedLog b.source] else []
    if writeOk then ⟨some b.payload, none, logs⟩
    else ⟨none, some 16, logs⟩

/-- A whole listen-mode run: `mainPre`, and when it reaches registration,
the `receive` exchange.  The observables: the pre-exchange outcome
(including the registered agent id) and the receive run. -/
def listenObservable (c : Config) (connectR : Except Unit Unit)
    (handshakeR : Except Unit (List Char)) (uuid : List Char)
    (recvResult : Except Unit Bundle) (writeOk : Bool) :
    Outcome × Option ReceiveRun :=
  match mainPre c connectR handshakeR uuid with
  | .registerCalled a => (.registerCalled a, some (receiveRun recvResult writeOk c.verbose))
  | o => (o, none)

/-! ### Helper lemmas -/

theorem scheme_decomp {raw : List Char} (h : raw.take 6 = dtnScheme) :
    raw = dtnScheme ++ raw.drop 6 := by
  conv_lhs => rw [← List.take_append_drop 6 raw]
  rw [h]

theorem splitOnce_eq_none {l : List Char} : splitOnce l = none ↔ '/' ∉ l := by
  induction l with
  | nil => simp [splitOnce]
  | cons c cs ih =>
    by_cases hc : c = '/'
    · subst hc; simp [splitOnce]
    · simp only [splitOnce, if_neg hc]
      cases hs : splitOnce cs with
      | none =>
        have := ih.mp hs
        simp [this, hc, Ne.symm hc]
      | some ab =>
        have : '/' ∈ cs := by
          by_contra hmem
          rw [ih.mpr hmem] at hs
          exact Option.noConfusion hs
        simp [this, hc]

theorem splitOnce_eq_some {l a b : List Char} (h : splitOnce l = some (a, b)) :
    l = a ++ '/' :: b ∧ '/' ∉ a := by
  induction l generalizing a b with
  | nil => simp [splitOnce] at h
  | cons c cs ih =>
    by_cases hc : c = '/'
    · subst hc
      simp only [splitOnce, if_pos rfl, Option.some.injEq, Prod.mk.injEq] at h
      obtain ⟨rfl, rfl⟩ := h
      simp
    · simp only [splitOnce, if_neg hc] at h
      cases hs : splitOnce cs with
      | none => rw [hs] at h; exact Option.noConfusion h
      | some ab =>
        obtain ⟨a', b'⟩ := ab
        rw [hs] at h
        simp only [Option.some.injEq, Prod.mk.injEq] at h
        obtain ⟨rfl, rfl⟩ := h
        obtain ⟨hcs, hna⟩ := ih hs
        constructor
        · rw [hcs]; rfl
        · intro hm
          rcases List.mem_cons.mp hm with h1 | h1
          · exact hc h1.symm
          · exact hna h1

/-- The main parsing fact: with the scheme present and a first `/` with a
non-empty tail, `split_node_agent` returns `dtn://<nodePart>/` and the tail,
and the raw string decomposes accordingly. -/
theorem splitNodeAgent_of_slash {raw nodePart tl : List Char}
    (h : raw.take 6 = dtnScheme)
    (hs : splitOnce (raw.drop 6) = some (nodePart, tl)) (ht : tl ≠ []) :
    splitNodeAgent raw = (some (dtnScheme ++ nodePart ++ ['/']), some tl) ∧
      raw = dtnScheme ++ nodePart ++ '/' :: tl := by
  obtain ⟨hd, _⟩ := splitOnce_eq_some hs
  have hraw : raw = dtnScheme ++ (nodePart ++ '/' :: tl) := by
    rw [scheme_decomp h, hd]
  have htake : raw.take (6 + nodePart.length + 1) = dtnScheme ++ nodePart ++ ['/'] := by
    rw [hraw]
    have h6 : (6 : Nat) + nodePart.length + 1 = dtnScheme.length + (nodePart.length + 1) := by
      simp [dtnScheme]; omega
    rw [h6, List.take_append]
    have : ('/' :: tl).take 1 = ['/'] := by simp
    rw [show nodePart.length + 1 = nodePart.length + 1 from rfl]
    rw [List.take_append 1, this, List.append_assoc]
  constructor
  · simp only [splitNodeAgent, if_pos h, hs, if_neg ht, htake]
  · rw [hraw]; simp

theorem nodeId_cases {raw n : List Char} (h : nodeId raw = some n) :
    n = raw ∨ ∃ nodePart tl, raw = dtnScheme ++ nodePart ++ '/' :: tl ∧
      n = dtnScheme ++ nodePart ++ ['/'] := by
  by_cases hp : raw.take 6 = dtnScheme
  · cases hs : splitOnce (raw.drop 6) with
    | none =>
      left
      simp only [nodeId, splitNodeAgent, if_pos hp, hs, Option.some.injEq] at h
      exact h.symm
    | some ab =>
      obtain ⟨a, b⟩ := ab
      by_cases hb : b = []
      · left
        subst hb
        simp [nodeId, splitNodeAgent, hp, hs] at h
        exact h.symm
      · right
        obtain ⟨heq, hraw⟩ := splitNodeAgent_of_slash hp hs hb
        refine ⟨a, b, hraw, ?_⟩
        rw [nodeId, heq] at h
        exact (Option.some.injEq _ _ ▸ h).symm
  · by_cases hne : raw = []
    · subst hne
      simp only [nodeId, splitNodeAgent, if_neg hp] at h
      simp at h
    · simp only [nodeId, splitNodeAgent, if_neg hp, if_pos hne] at h
      exact Option.noConfusion h

theorem head?_take_pos {α : Type} {l : List α} {n : Nat} (h : 0 < n) :
    (l.take n).head? = l.head? := by
  cases l with
  | nil => simp
  | cons x xs =>
    cases n with
    | zero => exact absurd h (by simp)
    | succ m => simp

theorem nodeId_head_after_scheme {raw n : List Char} (h : nodeId raw = some n) :
    (n.drop 6).head? = (raw.drop 6).head? := by
  rcases nodeId_cases h with rfl | ⟨a, b, hraw, hn⟩
  · rfl
  · subst hn; subst hraw
    simp only [dtnScheme, List.cons_append, List.nil_append, List.drop_succ_cons,
      List.drop_zero, List.append_assoc]
    cases a <;> simp

theorem optNodeMismatch_iff (addr : Option (List Char)) (srv : List Char) :
    optNodeMismatch addr srv = true ↔
      ∃ a n, addr = some a ∧ nodeId a = some n ∧ n ≠ srv := by
  cases addr with
  | none => simp [optNodeMismatch, isSomeAnd]
  | some a =>
    simp only [optNodeMismatch, isSomeAnd]
    cases hn : nodeId a <;> simp [hn]

/-! ### Claim theorems -/

/-- C2: `split_node_agent` follows the specified algorithm: with the scheme
present, no `/` in the remainder or an empty tail after the first `/` gives
(whole raw, none); a non-empty tail gives (scheme ++ before ++ `/`, tail); a
non-empty string without the scheme gives (none, whole raw); the empty
string gives (none, none). -/
theorem split_node_agent_follows_spec (raw : List Char) :
    (raw.take 6 = dtnScheme → '/' ∉ raw.drop 6 →
      splitNodeAgent raw = (some raw, none)) ∧
    (∀ nodePart, raw.take 6 = dtnScheme →
      splitOnce (raw.drop 6) = some (nodePart, []) →
      splitNodeAgent raw = (some raw, none)) ∧
    (∀ nodePart tl, raw.take 6 = dtnScheme →
      splitOnce (raw.drop 6) = some (nodePart, tl) → tl ≠ [] →
      splitNodeAgent raw = (some (dtnScheme ++ nodePart ++ ['/']), some tl)) ∧
    (¬ raw.take 6 = dtnScheme → raw ≠ [] →
      splitNodeAgent raw = (none, some raw)) ∧
    (raw = [] → splitNodeAgent raw = (none, none)) := by
  refine ⟨?_, ?_, ?_, ?_, ?_⟩
  · intro h hm
    have hn : splitOnce (raw.drop 6) = none := splitOnce_eq_none.mpr hm
    simp [splitNodeAgent, h, hn]
  · intro nodePart h hs
    simp [splitNodeAgent, h, hs]
  · intro nodePart tl h hs ht
    exact (splitNodeAgent_of_slash h hs ht).1
  · intro h hne
    simp [splitNodeAgent, h, hne]
  · intro h
    subst h
    decide

/-- C3 counterexample: for `dtn://n/a` the parser yields node `dtn://n/`
(with the trailing separator) and agent `a`, so `node + "/" + agent` is
`dtn://n//a`, which is not the original string and does not even re-parse to
the same components. -/
theorem node_slash_agent_not_equal_counterexample :
    nodeId ("dtn://n/a".toList) = some ("dtn://n/".toList) ∧
    agentId ("dtn://n/a".toList) = some ['a'] ∧
    ("dtn://n/".toList ++ ['/'] ++ ['a']) ≠ "dtn://n/a".toList ∧
    splitNodeAgent ("dtn://n/".toList ++ ['/'] ++ ['a']) ≠
      splitNodeAgent ("dtn://n/a".toList) := by
  decide

/-- C3 amended: with the scheme present and a non-empty tail after the first
`/`, both components are produced and `node ++ agent` (the node component
already carries the trailing `/` separator) reconstructs the raw string
exactly. -/
theorem node_concat_agent_reconstructs (raw nodePart tl : List Char)
    (h : raw.take 6 = dtnScheme)
    (hs : splitOnce (raw.drop 6) = some (nodePart, tl))
    (ht : tl ≠ []) :
    nodeId raw = some (dtnScheme ++ nodePart ++ ['/']) ∧
    agentId raw = some tl ∧
    (dtnScheme ++ nodePart ++ ['/']) ++ tl = raw := by
  obtain ⟨heq, hraw⟩ := splitNodeAgent_of_slash h hs ht
  refine ⟨?_, ?_, ?_⟩
  · rw [nodeId, heq]
  · rw [agentId, heq]
  · rw [hraw]
    simp

/-- C3 amended, witnessed at `dtn://n/a`. -/
theorem node_concat_agent_reconstructs_witness :
    nodeId ("dtn://n/a".toList) = some (dtnScheme ++ ['n'] ++ ['/']) ∧
    agentId ("dtn://n/a".toList) = some ['a'] ∧
    (dtnScheme ++ ['n'] ++ ['/']) ++ ['a'] = "dtn://n/a".toList :=
  node_concat_agent_reconstructs ("dtn://n/a".toList) ['n'] ['a']
    (by decide) (by decide) (by decide)

/-- C4: `is_singleton_node` is `false` exactly when a node component is
present and the character at offset 6 of the raw string (the one right
after the scheme) is the group marker `~`; in every other case it is
`true`. -/
theorem is_singleton_node_spec (raw : List Char) :
    isSingletonNode raw = false ↔
      ((nodeId raw).isSome ∧ (raw.drop 6).head? = some '~') := by
  unfold isSingletonNode
  cases hn : nodeId raw with
  | none => simp
  | some n =>
    rw [Option.some_bind, nodeId_head_after_scheme hn]
    cases hh : (raw.drop 6).head? with
    | none => simp
    | some c =>
      by_cases hc : c = '~'
      · subst hc; simp
      · simp [hc]

/-- C1 counterexample: in send mode, a destination whose explicit node id
(`dtn://otherNode/`) differs from the server-advertised node id
(`dtn://thisNode/`) is NOT cross-checked: the run proceeds to registration
instead of failing with the address-mismatch error (exit code 2). -/
theorem send_destination_node_not_cross_checked_counterexample :
    mainPre ⟨false, false, none, some ("dtn://otherNode/agentY".toList)⟩
        (Except.ok ()) (Except.ok ("dtn://thisNode/".toList)) ("u".toList) =
      Outcome.registerCalled ("u".toList) ∧
    optNodeMismatch (some ("dtn://otherNode/agentY".toList))
        ("dtn://thisNode/".toList) = true ∧
    exitCodeOf (mainPre ⟨false, false, none, some ("dtn://otherNode/agentY".toList)⟩
        (Except.ok ()) (Except.ok ("dtn://thisNode/".toList)) ("u".toList)) ≠
      some 2 := by
  decide

/-- C1 amended: once local validation passes, the run fails with the
address-mismatch error (exit code 2) exactly when the cross-check fires,
which happens iff the caller is in listen mode and the listen address's node
differs from the server's node id, or the supplied source address's node
differs — the send-mode destination is not cross-checked; the error message
names the server's actual node id. -/
theorem cross_check_node_amended (c : Config) (srv uuid : List Char)
    (h : validationError c = none) :
    (mainPre c (Except.ok ()) (Except.ok srv) uuid = Outcome.nodeMismatch srv ↔
      crossCheckFails c srv = true) ∧
    (crossCheckFails c srv = true ↔
      ((c.listen = true ∧ ∃ e n, c.endpointId = some e ∧ nodeId e = some n ∧ n ≠ srv) ∨
       (∃ s n, c.sourceEndpointId = some s ∧ nodeId s = some n ∧ n ≠ srv))) ∧
    exitCodeOf (Outcome.nodeMismatch srv) = some 2 ∧
    (∃ u v, mismatchMessage srv = u ++ srv ++ v) := by
  refine ⟨?_, ?_, rfl, ?_⟩
  · simp only [mainPre, h]
    by_cases hc : crossCheckFails c srv
    · simp [hc]
    · simp [hc]
  · simp [crossCheckFails, optNodeMismatch_iff]
  · exact ⟨"Provided node id is different from node id configured on server (".toList,
      ")".toList, rfl⟩

/-- C1 amended, witnessed in listen mode at listen address
`dtn://otherNode/agentY` against server node id `dtn://thisNode/`. -/
theorem cross_check_node_amended_witness :
    (mainPre ⟨false, true, none, some ("dtn://otherNode/agentY".toList)⟩
        (Except.ok ()) (Except.ok ("dtn://thisNode/".toList)) ("u".toList) =
        Outcome.nodeMismatch ("dtn://thisNode/".toList) ↔
      crossCheckFails ⟨false, true, none, some ("dtn://otherNode/agentY".toList)⟩
        ("dtn://thisNode/".toList) = true) ∧
    (crossCheckFails ⟨false, true, none, some ("dtn://otherNode/agentY".toList)⟩
        ("dtn://thisNode/".toList) = true ↔
      (((⟨false, true, none, some ("dtn://otherNode/agentY".toList)⟩ : Config).listen = true ∧
          ∃ e n, (⟨false, true, none, some ("dtn://otherNode/agentY".toList)⟩ : Config).endpointId = some e ∧
            nodeId e = some n ∧ n ≠ "dtn://thisNode/".toList) ∨
       (∃ s n, (⟨false, true, none, some ("dtn://otherNode/agentY".toList)⟩ : Config).sourceEndpointId = some s ∧
          nodeId s = some n ∧ n ≠ "dtn://thisNode/".toList))) ∧
    exitCodeOf (Outcome.nodeMismatch ("dtn://thisNode/".toList)) = some 2 ∧
    (∃ u v, mismatchMessage ("dtn://thisNode/".toList) =
      u ++ "dtn://thisNode/".toList ++ v) :=
  cross_check_node_amended ⟨false, true, none, some ("dtn://otherNode/agentY".toList)⟩
    ("dtn://thisNode/".toList) ("u".toList) (by decide)

/-- C5: the zero-I/O validation chain, in source order and independent of
every transport outcome: send mode rejects a destination without a node part
(clap usage error), then one without an agent part (distinct clap usage
error), then a non-singleton source (exit 1); listen mode rejects a
non-singleton listen address (exit 1). -/
theorem validate_intent_spec :
    ∀ (c : Config) (connectR : Except Unit Unit)
      (handshakeR : Except Unit (List Char)) (uuid : List Char),
    (c.listen = false → isNoneOr c.endpointId (fun it => (nodeId it).isNone) = true →
      mainPre c connectR handshakeR uuid = Outcome.usageMissingNode) ∧
    (c.listen = false → isNoneOr c.endpointId (fun it => (nodeId it).isNone) = false →
      isNoneOr c.endpointId (fun it => (agentId it).isNone) = true →
      mainPre c connectR handshakeR uuid = Outcome.usageMissingAgent) ∧
    (c.listen = false → isNoneOr c.endpointId (fun it => (nodeId it).isNone) = false →
      isNoneOr c.endpointId (fun it => (agentId it).isNone) = false →
      isSomeAnd c.sourceEndpointId (fun it => !isSingletonNode it) = true →
      mainPre c connectR handshakeR uuid = Outcome.exitNonSingletonSource ∧
        exitCodeOf Outcome.exitNonSingletonSource = some 1) ∧
    (c.listen = true → isSomeAnd c.endpointId (fun it => !isSingletonNode it) = true →
      mainPre c connectR handshakeR uuid = Outcome.exitNonSingletonListen ∧
        exitCodeOf Outcome.exitNonSingletonListen = some 1) ∧
    Outcome.usageMissingNode ≠ Outcome.usageMissingAgent := by
  intro c connectR handshakeR uuid
  refine ⟨?_, ?_, ?_, ?_, by decide⟩
  · intro hl h1
    simp [mainPre, validationError, hl, h1]
  · intro hl h1 h2
    simp [mainPre, validationError, hl, h1, h2]
  · intro hl h1 h2 h3
    exact ⟨by simp [mainPre, validationError, hl, h1, h2, h3], rfl⟩
  · intro hl h1
    exact ⟨by simp [mainPre, validationError, hl, h1], rfl⟩

theorem readLoop_chunks (chunks : List (List Nat)) (rest : List ReadEvent)
    (acc : List Nat) (h : ∀ ch ∈ chunks, ch ≠ []) :
    readLoop (chunks.map ReadEvent.ok ++ rest) acc =
      readLoop rest (acc ++ chunks.flatten) := by
  induction chunks generalizing acc with
  | nil => simp
  | cons c cs ih =>
    have hc : c ≠ [] := h c (by simp)
    have hcs : ∀ ch ∈ cs, ch ≠ [] := fun ch hm => h ch (by simp [hm])
    have step : readLoop ((c :: cs).map ReadEvent.ok ++ rest) acc =
        readLoop (cs.map ReadEvent.ok ++ rest) (acc ++ c) := by
      simp [readLoop, hc]
    rw [step, ih (acc ++ c) hcs, List.flatten_cons, ← List.append_assoc]

/-- C6: send accumulates the whole input (bounded reads until end of
stream), issues exactly one `send_bundle` call with the literal destination
and the buffered bytes, logs the byte count and destination when verbose,
exits 13 on a read failure (before any send call) and 14 on a send failure,
and the two codes are distinct. -/
theorem send_spec :
    ∀ (chunks : List (List Nat)) (dest : List Char) (verbose : Bool),
    (∀ ch ∈ chunks, ch ≠ [] ∧ ch.length ≤ 1024) →
    (sendRun (chunks.map ReadEvent.ok ++ [ReadEvent.ok []]) true verbose dest =
        some ⟨[(dest, chunks.flatten)], none,
          if verbose then [sentLog chunks.flatten.length dest] else []⟩) ∧
    (sendRun (chunks.map ReadEvent.ok ++ [ReadEvent.ok []]) false verbose dest =
        some ⟨[(dest, chunks.flatten)], some 14, []⟩) ∧
    (∀ (rest : List ReadEvent) (sendOk : Bool),
        sendRun (chunks.map ReadEvent.ok ++ ReadEvent.fail :: rest) sendOk verbose dest =
          some ⟨[], some 13, []⟩) ∧
    ((13 : Nat) ≠ 14) ∧
    (∃ u v, sentLog chunks.flatten.length dest =
      u ++ (Nat.repr chunks.flatten.length).toList ++ v) ∧
    (∃ u, sentLog chunks.flatten.length dest = u ++ dest) := by
  intro chunks dest verbose h
  have h' : ∀ ch ∈ chunks, ch ≠ [] := fun ch hm => (h ch hm).1
  refine ⟨?_, ?_, ?_, by decide, ?_, ?_⟩
  · simp [sendRun, readLoop_chunks _ _ _ h', readLoop]
  · simp [sendRun, readLoop_chunks _ _ _ h', readLoop]
  · intro rest sendOk
    simp [sendRun, readLoop_chunks _ _ _ h', readLoop]
  · exact ⟨"Sent ".toList, " byte bundle to ".toList ++ dest, by simp [sentLog]⟩
  · refine ⟨"Sent ".toList ++ (Nat.repr chunks.flatten.length).toList
      ++ " byte bundle to ".toList, ?_⟩
    simp [sentLog]

/-- C6, witnessed at input `hello` (5 bytes, one read) sent to
`dtn://node1/agent1` in verbose mode. -/
theorem send_spec_witness :
    (sendRun ([[104, 101, 108, 108, 111]].map ReadEvent.ok ++ [ReadEvent.ok []])
        true true ("dtn://node1/agent1".toList) =
      some ⟨[("dtn://node1/agent1".toList, [[104, 101, 108, 108, 111]].flatten)], none,
        if true then [sentLog [[104, 101, 108, 108, 111]].flatten.length
          ("dtn://node1/agent1".toList)] else []⟩) ∧
    (sendRun ([[104, 101, 108, 108, 111]].map ReadEvent.ok ++ [ReadEvent.ok []])
        false true ("dtn://node1/agent1".toList) =
      some ⟨[("dtn://node1/agent1".toList, [[104, 101, 108, 108, 111]].flatten)],
        some 14, []⟩) ∧
    (∀ (rest : List ReadEvent) (sendOk : Bool),
      sendRun ([[104, 101, 108, 108, 111]].map ReadEvent.ok ++ ReadEvent.fail :: rest)
          sendOk true ("dtn://node1/agent1".toList) = some ⟨[], some 13, []⟩) ∧
    ((13 : Nat) ≠ 14) ∧
    (∃ u v, sentLog [[104, 101, 108, 108, 111]].flatten.length ("dtn://node1/agent1".toList) =
      u ++ (Nat.repr [[104, 101, 108, 108, 111]].flatten.length).toList ++ v) ∧
    (∃ u, sentLog [[104, 101, 108, 108, 111]].flatten.length ("dtn://node1/agent1".toList) =
      u ++ "dtn://node1/agent1".toList) :=
  send_spec [[104, 101, 108, 108, 111]] ("dtn://node1/agent1".toList) true
    (by decide)

/-- C7: receive blocks for exactly one bundle, writes the payload verbatim
and completely to stdout, logs the source when present and the literal
`unknown source` text otherwise (verbose), exits 15 on a receive failure
(with nothing written or logged) and 16 on a write failure, and the two
codes are distinct. -/
theorem receive_spec :
    ∀ (src : Option (List Char)) (p : List Nat) (verbose writeOk : Bool),
    ((receiveRun (Except.ok ⟨src, p⟩) true verbose).output = some p) ∧
    ((receiveRun (Except.ok ⟨src, p⟩) true verbose).exitCode = none) ∧
    ((receiveRun (Except.ok ⟨src, p⟩) writeOk true).logs = [receivedLog src]) ∧
    (∀ s, src = some s → ∃ u, receivedLog src = u ++ s) ∧
    (receivedLog none = "Received bundle from unknown source".toList) ∧
    ((receiveRun (Except.ok ⟨src, p⟩) writeOk false).logs = []) ∧
    (receiveRun (Except.error ()) writeOk verbose = ⟨none, some 15, []⟩) ∧
    ((receiveRun (Except.ok ⟨src, p⟩) false verbose).exitCode = some 16) ∧
    ((15 : Nat) ≠ 16) := by
  intro src p verbose writeOk
  refine ⟨?_, ?_, ?_, ?_, rfl, ?_, ?_, ?_, by decide⟩
  · simp [receiveRun]
  · simp [receiveRun]
  · cases writeOk <;> simp [receiveRun]
  · intro s hs
    subst hs
    exact ⟨"Received bundle from ".toList, rfl⟩
  · cases writeOk <;> simp [receiveRun]
  · simp [receiveRun]
  · cases verbose <;> simp [receiveRun]

/-- C10 (implicit): with an empty input stream (end-of-stream on the first
read), send still issues exactly one `send_bundle` call with a zero-length
payload and the given destination, and the run succeeds (no error exit). -/
theorem send_empty_input_spec (verbose : Bool) (dest : List Char) :
    sendRun [ReadEvent.ok []] true verbose dest =
      some ⟨[(dest, [])], none, if verbose then [sentLog 0 dest] else []⟩ := by
  cases verbose <;> rfl

/-- C8: the agent id passed to register is the agent component of the listen
address (listen mode) or of the source address (send mode) when present, and
otherwise the freshly generated uuid; in particular listen mode with no
positional address always registers the fresh uuid.  The last conjunct ties
`deriveAgentId` to the id `mainPre` actually registers. -/
theorem derive_agent_id_spec :
    ∀ (c : Config) (uuid : List Char),
    (c.listen = true → ∀ e a, c.endpointId = some e → agentId e = some a →
      deriveAgentId c uuid = a) ∧
    (c.listen = false → ∀ s a, c.sourceEndpointId = some s → agentId s = some a →
      deriveAgentId c uuid = a) ∧
    (c.listen = true → c.endpointId = none → deriveAgentId c uuid = uuid) ∧
    (c.listen = true → ∀ e, c.endpointId = some e → agentId e = none →
      deriveAgentId c uuid = uuid) ∧
    (c.listen = false → c.sourceEndpointId = none → deriveAgentId c uuid = uuid) ∧
    (c.listen = false → ∀ s, c.sourceEndpointId = some s → agentId s = none →
      deriveAgentId c uuid = uuid) ∧
    (∀ srv, validationError c = none → crossCheckFails c srv = false →
      mainPre c (Except.ok ()) (Except.ok srv) uuid =
        Outcome.registerCalled (deriveAgentId c uuid)) := by
  intro c uuid
  refine ⟨?_, ?_, ?_, ?_, ?_, ?_, ?_⟩
  · intro hl e a he ha
    simp [deriveAgentId, hl, he, ha]
  · intro hl s a hs ha
    simp [deriveAgentId, hl, hs, ha]
  · intro hl he
    have : agentId [] = none := by decide
    simp [deriveAgentId, hl, he, this]
  · intro hl e he ha
    simp [deriveAgentId, hl, he, ha]
  · intro hl hs
    have : agentId [] = none := by decide
    simp [deriveAgentId, hl, hs, this]
  · intro hl s hs ha
    simp [deriveAgentId, hl, hs, ha]
  · intro srv hv hc
    simp [mainPre, hv, hc]

/-- C9 counterexample: two listen-mode runs identical except for
`--source-endpoint` differ observably: with no source the run registers and
receives, while with source `dtn://otherNode/x` (whose node differs from the
server's `dtn://thisNode/`) it terminates with the address-mismatch error,
exit code 2. -/
theorem listen_source_endpoint_observed_counterexample :
    listenObservable ⟨false, true, none, none⟩ (Except.ok ())
        (Except.ok ("dtn://thisNode/".toList)) ("u".toList)
        (Except.ok ⟨none, []⟩) true ≠
      listenObservable ⟨false, true, some ("dtn://otherNode/x".toList), none⟩
        (Except.ok ()) (Except.ok ("dtn://thisNode/".toList)) ("u".toList)
        (Except.ok ⟨none, []⟩) true ∧
    exitCodeOf (mainPre ⟨false, true, some ("dtn://otherNode/x".toList), none⟩
        (Except.ok ()) (Except.ok ("dtn://thisNode/".toList)) ("u".toList)) =
      some 2 := by
  decide

/-- C9 amended: in listen mode a supplied `--source-endpoint` is ignored
except for the node cross-check: whenever its node component (if any) does
not differ from the server-advertised node id, the observable behavior —
registered agent id, transport calls, outputs and exit code — is identical
to the run without it. -/
theorem listen_source_endpoint_ignored_amended
    (verbose : Bool) (endpoint s₁ s₂ : Option (List Char))
    (connectR : Except Unit Unit) (handshakeR : Except Unit (List Char))
    (uuid : List Char) (recvResult : Except Unit Bundle) (writeOk : Bool)
    (h : ∀ srv, handshakeR = Except.ok srv →
      optNodeMismatch s₁ srv = false ∧ optNodeMismatch s₂ srv = false) :
    listenObservable ⟨verbose, true, s₁, endpoint⟩ connectR handshakeR uuid
        recvResult writeOk =
      listenObservable ⟨verbose, true, s₂, endpoint⟩ connectR handshakeR uuid
        recvResult writeOk := by
  have hval : ∀ s, validationError ⟨verbose, true, s, endpoint⟩ =
      validationError ⟨verbose, true, none, endpoint⟩ := by
    intro s
    simp [validationError]
  simp only [listenObservable, mainPre, hval]
  cases hv : validationError ⟨verbose, true, none, endpoint⟩ with
  | some e => rfl
  | none =>
    cases connectR with
    | error _ => rfl
    | ok _ =>
      cases handshakeR with
      | error _ => rfl
      | ok srv =>
        obtain ⟨h1, h2⟩ := h srv rfl
        simp [crossCheckFails, deriveAgentId, h1, h2]

/-- C9 amended, witnessed: a listen run with no source against one with the
agent-only source `agentX` (no node component). -/
theorem listen_source_endpoint_ignored_amended_witness :
    listenObservable ⟨true, true, none, some ("agentY".toList)⟩ (Except.ok ())
        (Except.ok ("dtn://thisNode/".toList)) ("u".toList)
        (Except.ok ⟨some ("dtn://node1/agent1".toList), [1, 2]⟩) true =
      listenObservable ⟨true, true, some ("agentX".toList), some ("agentY".toList)⟩
        (Except.ok ()) (Except.ok ("dtn://thisNode/".toList)) ("u".toList)
        (Except.ok ⟨some ("dtn://node1/agent1".toList), [1, 2]⟩) true :=
  listen_source_endpoint_ignored_amended true (some ("agentY".toList)) none
    (some ("agentX".toList)) (Except.ok ()) (Except.ok ("dtn://thisNode/".toList))
    ("u".toList) (Except.ok ⟨some ("dtn://node1/agent1".toList), [1, 2]⟩) true
    (by
      intro srv hs
      cases hs
      exact ⟨by decide, by decide⟩)

end Bundlecat
